import Mathlib

/-!
# Budgeter — verification of the offline-sync core and the current-earnings rule

Shallow embedding of the parts of the Budgeter repository that the spec's
claims are about:

* `currentEarnings` — the aggregation in `src/hooks/useFinancialData.tsx`
  (`useCurrentEarnings`): three `reduce`-sums over rows fetched by the UI,
  with JavaScript `Number(...)` coercion, `|| 0` collapse and a final
  `Math.max(0, ...)` clamp.
* `SimpleOfflineSync` (`src/lib/offline-sync-simple.ts`) — `addIncome`,
  `addAsset`, `getIncomes`, `getAssets`, `syncOfflineData`, `getSyncStatus`.
* `OfflineSyncService` (`src/lib/offline-sync.ts`) — `syncOfflineData` with
  its `syncInProgress` single-flight flag.

Modelling conventions:
* JavaScript numbers are exact rationals `ℚ` plus an explicit `nan` value
  (`JNum`); row amounts that may be `null`/`undefined` are a `JsVal`.
* Timestamps (`created_at`, `updated_at`) are naturals: the code stores ISO
  strings and compares them through `new Date(...).getTime()`, and ISO-string
  order coincides with numeric time order.
* Each remote call's outcome is an explicit input (`Except String _`): `.ok`
  carries the server's reply, `.error` stands for any thrown failure
  (network error, validation error, timeout).  `navigator.onLine` is a
  boolean input, and the authenticated user an `Option String`.
* The Dexie local database is a `LocalStore` of per-table record lists kept
  in insertion order; `where(f).equals(v)` is `List.filter`,
  `where('id').equals(i).modify(patch)` maps the patch over the records whose
  current id is `i`, `add` appends, `count` is `length` of the filter.
-/

namespace Budgeter

/-- A JavaScript number: an exact rational or `NaN`.
(`Number(undefined)` is `NaN`; arithmetic on `NaN` stays `NaN`.) -/
inductive JNum where
  | num : ℚ → JNum
  | nan : JNum
  deriving DecidableEq

/-- JavaScript `+` on numbers: `NaN` absorbs. -/
def jsAdd : JNum → JNum → JNum
  | .num a, .num b => .num (a + b)
  | _, _ => .nan

/-- A row field that may hold a number, `null`, or be missing/`undefined`. -/
inductive JsVal where
  | num : ℚ → JsVal
  | null : JsVal
  | undef : JsVal
  deriving DecidableEq

/-- JavaScript `Number(x)`: numbers unchanged, `Number(null) = 0`,
`Number(undefined) = NaN`. -/
def toNumber : JsVal → JNum
  | .num q => .num q
  | .null => .num 0
  | .undef => .nan

/-- JavaScript `x || 0` on a number `x`: `0` and `NaN` are falsy, so the
result is `0` exactly when `x` is `0` or `NaN`; as a rational this sends
`NaN` to `0` and any number to itself. -/
def orZero : JNum → ℚ
  | .num q => q
  | .nan => 0

/-- `rows.reduce((sum, r) => sum + Number(r.amount), 0)` — the accumulation
used three times inside `useCurrentEarnings`. -/
def sumAmounts (l : List JsVal) : JNum :=
  l.foldl (fun s v => jsAdd s (toNumber v)) (.num 0)

/-- An income row as consumed by `useCurrentEarnings` (only `amount` matters). -/
structure IncomeRow where
  amount : JsVal
  deriving DecidableEq

/-- A transaction row as consumed by `useCurrentEarnings`. -/
structure TxRow where
  transaction_type : String
  amount : JsVal
  deriving DecidableEq

/-- A financial-goal row as consumed by `useCurrentEarnings`. -/
structure GoalRow where
  current_amount : JsVal
  deriving DecidableEq

/-- `useCurrentEarnings` (src/hooks/useFinancialData.tsx, lines 186–212):

```
const totalIncome = incomes?.reduce((sum, income) => sum + Number(income.amount), 0) || 0;
const totalExpenses = transactions?.filter(t => t.transaction_type === 'expense')
  .reduce((sum, transaction) => sum + Number(transaction.amount), 0) || 0;
const totalInGoals = goals?.reduce((sum, goal) => sum + Number(goal.current_amount), 0) || 0;
const currentEarnings = totalIncome - totalExpenses - totalInGoals;
return Math.max(0, currentEarnings);
```
-/
def currentEarnings (incomes : List IncomeRow) (transactions : List TxRow)
    (goals : List GoalRow) : ℚ :=
  let totalIncome := orZero (sumAmounts (incomes.map (fun i => i.amount)))
  let totalExpenses := orZero (sumAmounts
    ((transactions.filter (fun t => t.transaction_type = "expense")).map
      (fun t => t.amount)))
  let totalInGoals := orZero (sumAmounts (goals.map (fun g => g.current_amount)))
  max 0 (totalIncome - totalExpenses - totalInGoals)

/-- Whether a `JsVal` is the missing/`undefined` value. -/
def JsVal.isUndef : JsVal → Bool
  | .undef => true
  | _ => false

/-- The rational a defined (non-`undefined`) `JsVal` contributes:
numbers themselves, `null` contributes `0` (and `undefined` is sent to `0`
as a don't-care). -/
def JsVal.ratOf : JsVal → ℚ
  | .num q => q
  | _ => 0

/-- The accumulation evaluates to `NaN` exactly when some entry is
`undefined`; otherwise it is the exact rational sum with `null` read as `0`. -/
lemma sumAmounts_eq (l : List JsVal) :
    sumAmounts l = if l.any JsVal.isUndef then JNum.nan
      else JNum.num ((l.map JsVal.ratOf).sum) := by
  suffices h : ∀ (a : ℚ),
      l.foldl (fun s w => jsAdd s (toNumber w)) (.num a) =
        if l.any JsVal.isUndef then JNum.nan
        else JNum.num (a + (l.map JsVal.ratOf).sum) by
    simpa [sumAmounts] using h 0
  induction l with
  | nil => intro a; simp
  | cons v t ih =>
    intro a
    cases v with
    | num q =>
      have := ih (a + q)
      simp only [List.foldl_cons, jsAdd, toNumber, List.any_cons, JsVal.isUndef,
        List.map_cons, List.sum_cons, JsVal.ratOf, Bool.false_or] at this ⊢
      rw [this]
      ring_nf
    | null =>
      have := ih (a + 0)
      simp only [List.foldl_cons, jsAdd, toNumber, List.any_cons, JsVal.isUndef,
        List.map_cons, List.sum_cons, JsVal.ratOf, Bool.false_or] at this ⊢
      rw [this]
      ring_nf
    | undef =>
      simp only [List.foldl_cons, jsAdd, toNumber, List.any_cons, JsVal.isUndef,
        Bool.true_or, if_pos]
      clear ih
      induction t with
      | nil => rfl
      | cons w t iht => simpa [jsAdd] using iht

/-- The `reduce`-then-`|| 0` pipeline, collapsed to a rational: `0` whenever
some entry is `undefined`, otherwise the exact sum with `null` as `0`. -/
lemma orZero_sumAmounts (l : List JsVal) :
    orZero (sumAmounts l) =
      if l.any JsVal.isUndef then 0 else (l.map JsVal.ratOf).sum := by
  rw [sumAmounts_eq]
  by_cases h : l.any JsVal.isUndef <;> simp [h, orZero]

/-- On a list of plain numbers the accumulation is the exact sum. -/
lemma sumAmounts_num (l : List ℚ) :
    sumAmounts (l.map JsVal.num) = JNum.num l.sum := by
  rw [sumAmounts_eq]
  have hn : ¬ (l.map JsVal.num).any JsVal.isUndef := by
    simp [List.any_map, JsVal.isUndef, Function.comp]
  rw [if_neg hn]
  congr 1
  have hcomp : JsVal.ratOf ∘ JsVal.num = id := funext fun q => rfl
  simp [List.map_map, hcomp]

/-- The rational a whole amounts column contributes after the
`reduce`/`|| 0` pipeline: `0` when any entry is `undefined` (the `NaN` sum is
collapsed by `|| 0`), otherwise the exact sum with `null` read as `0`. -/
def listContribution (l : List JsVal) : ℚ :=
  if l.any JsVal.isUndef then 0 else (l.map JsVal.ratOf).sum

lemma currentEarnings_eq_contributions (i : List IncomeRow) (t : List TxRow)
    (g : List GoalRow) :
    currentEarnings i t g =
      max 0 (listContribution (i.map fun r => r.amount)
        - listContribution
            ((t.filter fun r => r.transaction_type = "expense").map fun r => r.amount)
        - listContribution (g.map fun r => r.current_amount)) := by
  simp only [currentEarnings, listContribution, orZero_sumAmounts]

/-- C1: on row lists whose amounts are all plain numbers, the
current-earnings aggregation returns
`max 0 (sum incomes − sum expense-type transactions − sum goals)`;
only transactions whose `transaction_type` is `"expense"` contribute, the
empty triple gives `0`, and the result is non-negative on all inputs. -/
theorem currentEarnings_formula_spec :
    (∀ (incomes : List ℚ) (txs : List (String × ℚ)) (goals : List ℚ),
      currentEarnings (incomes.map fun q => ⟨JsVal.num q⟩)
          (txs.map fun p => ⟨p.1, JsVal.num p.2⟩)
          (goals.map fun q => ⟨JsVal.num q⟩)
        = max 0 (incomes.sum
            - ((txs.filter fun p => p.1 = "expense").map Prod.snd).sum
            - goals.sum))
    ∧ currentEarnings [] [] [] = 0
    ∧ ∀ (i : List IncomeRow) (t : List TxRow) (g : List GoalRow),
        0 ≤ currentEarnings i t g := by
  refine ⟨?_, by simp [currentEarnings, sumAmounts, orZero], ?_⟩
  · intro incomes txs goals
    simp only [currentEarnings]
    have hi : ((incomes.map fun q => (⟨JsVal.num q⟩ : IncomeRow)).map
        fun r => r.amount) = incomes.map JsVal.num := by
      simp [List.map_map, Function.comp]
    have hg : ((goals.map fun q => (⟨JsVal.num q⟩ : GoalRow)).map
        fun r => r.current_amount) = goals.map JsVal.num := by
      simp [List.map_map, Function.comp]
    have ht : (((txs.map fun p => (⟨p.1, JsVal.num p.2⟩ : TxRow)).filter
          fun r => r.transaction_type = "expense").map fun r => r.amount)
        = ((txs.filter fun p => p.1 = "expense").map Prod.snd).map JsVal.num := by
      rw [List.filter_map, List.map_map, List.map_map]
      rfl
    rw [hi, hg, ht, sumAmounts_num, sumAmounts_num, sumAmounts_num]
    rfl
  · intro i t g
    exact le_max_left 0 _

/-- C7 (counterexample): an income row whose `amount` is missing/`undefined`
does not merely contribute `0` itself — `Number(undefined)` is `NaN`, the
whole accumulated sum becomes `NaN`, and `|| 0` collapses the entire income
total to `0`.  With incomes `[100, undefined]` the code returns `0`, while
treating the bad row as `0` would return `100`. -/
theorem currentEarnings_undef_counterexample :
    currentEarnings [⟨JsVal.num 100⟩, ⟨JsVal.undef⟩] [] [] = 0
    ∧ currentEarnings [⟨JsVal.num 100⟩, ⟨JsVal.num 0⟩] [] [] = 100
    ∧ (0 : ℚ) ≠ 100 := by
  refine ⟨?_, ?_, by norm_num⟩
  · simp [currentEarnings, sumAmounts, jsAdd, toNumber, orZero]
  · simp [currentEarnings, sumAmounts, jsAdd, toNumber, orZero]

/-- C7 (amended): the aggregation never throws and always returns a
non-negative rational; a `null` amount is read as `0` for its row; but a
missing/`undefined` amount zeroes the *entire* sum it occurs in (the `NaN`
it produces is collapsed to `0` by `|| 0`), rather than contributing `0` for
just its own row. -/
theorem currentEarnings_null_undef_spec :
    (∀ (i : List IncomeRow) (t : List TxRow) (g : List GoalRow),
      currentEarnings i t g =
        max 0 (listContribution (i.map fun r => r.amount)
          - listContribution
              ((t.filter fun r => r.transaction_type = "expense").map
                fun r => r.amount)
          - listContribution (g.map fun r => r.current_amount)))
    ∧ toNumber JsVal.null = JNum.num 0
    ∧ toNumber JsVal.undef = JNum.nan
    ∧ (∀ l : List JsVal, l.any JsVal.isUndef → listContribution l = 0)
    ∧ ∀ (i : List IncomeRow) (t : List TxRow) (g : List GoalRow),
        0 ≤ currentEarnings i t g :=
  ⟨currentEarnings_eq_contributions, rfl, rfl,
    fun l h => by simp [listContribution, h],
    fun i t g => le_max_left 0 _⟩

/-- Closed instance for the amended C7 statement: the hypothesis of its
fourth conjunct holds at `[undefined]`, where the contribution is `0`. -/
theorem currentEarnings_null_undef_spec_witness :
    ([JsVal.undef].any JsVal.isUndef = true)
    ∧ listContribution [JsVal.undef] = 0 :=
  ⟨by decide, currentEarnings_null_undef_spec.2.2.2.1 [JsVal.undef] (by decide)⟩

/-! ## Offline sync: data model (src/lib/offline-db.ts, offline-sync-simple.ts) -/

/-- `sync_status` tag of a locally stored record. -/
inductive SyncStatus where
  | pending
  | synced
  | failed
  deriving DecidableEq

/-- Business fields of an income record (the caller-supplied payload of
`addIncome`). -/
structure IncomeFields where
  description : String
  amount : ℚ
  currency : String
  source_type : String
  source_location : String
  received_date : String
  deriving DecidableEq

/-- An income record as stored in the Dexie `incomes` table: the payload
spread together with `user_id` and the sync metadata. -/
structure IncomeRecord where
  fields : IncomeFields
  user_id : String
  id : String
  sync_status : SyncStatus
  created_at : ℕ
  updated_at : ℕ
  deriving DecidableEq

/-- Business fields of an asset record (the caller-supplied payload of
`addAsset`). -/
structure AssetFields where
  asset_name : String
  asset_type : String
  current_value : ℚ
  currency : String
  purchase_date : String
  notes : String
  deriving DecidableEq

/-- An asset record as stored in the Dexie `assets` table. -/
structure AssetRecord where
  fields : AssetFields
  user_id : String
  id : String
  sync_status : SyncStatus
  created_at : ℕ
  updated_at : ℕ
  deriving DecidableEq

/-- The local Dexie store, restricted to the two tables the modelled
operations touch (the database also has goals/transactions/budgetCategories
tables, which `offline-sync-simple.ts` never reads or writes). -/
structure LocalStore where
  incomes : List IncomeRecord
  assets : List AssetRecord
  deriving DecidableEq

/-! ## SimpleOfflineSync.addIncome / addAsset (offline-sync-simple.ts) -/

/-- The offline path of `addIncome`: append to the local `incomes` table a
record made of the payload spread with `user_id`, the synthesized temporary
id, status `pending`, and `created_at`/`updated_at` both stamped `now`;
return the temporary id. -/
def addIncomeOffline (data : IncomeFields) (userId tempId : String) (now : ℕ)
    (st : LocalStore) : String × LocalStore :=
  (tempId, { st with incomes := st.incomes ++
    [{ fields := data, user_id := userId, id := tempId,
       sync_status := .pending, created_at := now, updated_at := now }] })

/-- `SimpleOfflineSync.addIncome`.  `user` is the resolved authenticated
user (`none` when `supabase.auth.getUser()` yields no user), `online` is
`navigator.onLine`, and `remote` is the outcome of the remote insert were it
attempted (`.ok id` = the inserted row's id, `.error` = any thrown failure).
Throwing is an `Except.error` result. -/
def addIncome (user : Option String) (online : Bool)
    (remote : Except String String) (data : IncomeFields) (tempId : String)
    (now : ℕ) (st : LocalStore) : Except String (String × LocalStore) :=
  match user with
  | none => .error "User not authenticated"
  | some uid =>
    if online then
      match remote with
      | .ok serverId => .ok (serverId, st)
      | .error _ => .ok (addIncomeOffline data uid tempId now st)
    else
      .ok (addIncomeOffline data uid tempId now st)

/-- The offline path of `addAsset`. -/
def addAssetOffline (data : AssetFields) (userId tempId : String) (now : ℕ)
    (st : LocalStore) : String × LocalStore :=
  (tempId, { st with assets := st.assets ++
    [{ fields := data, user_id := userId, id := tempId,
       sync_status := .pending, created_at := now, updated_at := now }] })

/-- `SimpleOfflineSync.addAsset`. -/
def addAsset (user : Option String) (online : Bool)
    (remote : Except String String) (data : AssetFields) (tempId : String)
    (now : ℕ) (st : LocalStore) : Except String (String × LocalStore) :=
  match user with
  | none => .error "User not authenticated"
  | some uid =>
    if online then
      match remote with
      | .ok serverId => .ok (serverId, st)
      | .error _ => .ok (addAssetOffline data uid tempId now st)
    else
      .ok (addAssetOffline data uid tempId now st)

/-! ## SimpleOfflineSync.getIncomes / getAssets -/

/-- Newest-first comparison used by the `sort` callback
`(a, b) => new Date(b.created_at).getTime() - new Date(a.created_at).getTime()`. -/
def byNewest {α : Type} (key : α → ℕ) : α → α → Prop :=
  fun a b => key b ≤ key a

instance {α : Type} (key : α → ℕ) : DecidableRel (byNewest key) :=
  fun a b => Nat.decLe (key b) (key a)

instance {α : Type} (key : α → ℕ) : IsTotal α (byNewest key) :=
  ⟨fun a b => Nat.le_total (key b) (key a)⟩

instance {α : Type} (key : α → ℕ) : IsTrans α (byNewest key) :=
  ⟨fun _ _ _ h1 h2 => le_trans h2 h1⟩

/-- The remote contribution to a listing: `getOnlineIncomes` is called only
when online, and its `try/catch` turns any failure into `[]` (`data || []`
likewise turns a null reply into `[]`). -/
def remoteContribution {ρ : Type} (online : Bool)
    (remote : Except String (List ρ)) : List ρ :=
  if online then
    match remote with
    | .ok l => l
    | .error _ => []
  else []

/-- `SimpleOfflineSync.getIncomes`: no user → `[]`; otherwise the remote
rows (empty when offline or the remote listing fails) concatenated with the
local rows whose `user_id` matches, sorted newest-first by `created_at`. -/
def getIncomes (user : Option String) (online : Bool)
    (remote : Except String (List IncomeRecord)) (st : LocalStore) :
    List IncomeRecord :=
  match user with
  | none => []
  | some uid =>
    let onlineIncomes := remoteContribution online remote
    let offlineIncomes := st.incomes.filter fun r => r.user_id = uid
    List.insertionSort (byNewest IncomeRecord.created_at)
      (onlineIncomes ++ offlineIncomes)

/-- `SimpleOfflineSync.getAssets`. -/
def getAssets (user : Option String) (online : Bool)
    (remote : Except String (List AssetRecord)) (st : LocalStore) :
    List AssetRecord :=
  match user with
  | none => []
  | some uid =>
    let onlineAssets := remoteContribution online remote
    let offlineAssets := st.assets.filter fun r => r.user_id = uid
    List.insertionSort (byNewest AssetRecord.created_at)
      (onlineAssets ++ offlineAssets)

/-! ## The reconciliation sweep (`syncOfflineData`)

Both services run the same per-table loop (once for incomes, once for
assets): take the list of records with `sync_status = 'pending'`, and for
each one attempt a remote insert of its business-field payload; on success
`modify` the records whose id equals the snapshot record's id to carry the
server-assigned id, status `synced` and a fresh `updated_at`; on a thrown
failure `modify` them to status `failed` with a fresh `updated_at`, and
continue with the next record.  The loop is modelled once, generically in
the record type `ρ` and payload type `π`. -/

/-- The per-table ingredients of a sweep loop. -/
structure SweepOps (ρ π : Type) where
  getId : ρ → String
  isPending : ρ → Bool
  mkP : ρ → π
  onOk : String → ρ → ρ
  onErr : ρ → ρ

/-- Dexie `where('id').equals(target).modify(patch)`: apply the patch to
every record whose current id is `target`. -/
def modifyById {ρ : Type} (getId : ρ → String) (target : String) (f : ρ → ρ)
    (s : List ρ) : List ρ :=
  s.map fun x => if getId x = target then f x else x

/-- One iteration of the sweep loop over snapshot record `r`: submit its
payload, then patch the store according to the outcome. -/
def sweepStep {ρ π : Type} (ops : SweepOps ρ π)
    (env : π → Except String String) (s : List ρ) (r : ρ) : List ρ :=
  match env (ops.mkP r) with
  | .ok sid => modifyById ops.getId (ops.getId r) (ops.onOk sid) s
  | .error _ => modifyById ops.getId (ops.getId r) ops.onErr s

/-- The sweep loop: iterate over the snapshot `todo` of pending records,
threading the store and accumulating the submitted payloads. -/
def sweepAux {ρ π : Type} (ops : SweepOps ρ π)
    (env : π → Except String String) :
    List ρ → List ρ × List π → List ρ × List π
  | [], acc => acc
  | r :: todo, acc =>
    sweepAux ops env todo (sweepStep ops env acc.1 r, acc.2 ++ [ops.mkP r])

/-- A whole per-table sweep: snapshot the pending records of the table, then
run the loop. -/
def sweep {ρ π : Type} (ops : SweepOps ρ π)
    (env : π → Except String String) (l : List ρ) : List ρ × List π :=
  sweepAux ops env (l.filter ops.isPending) (l, [])

/-- What one snapshot record becomes after its own iteration. -/
def stepResult {ρ π : Type} (ops : SweepOps ρ π)
    (env : π → Except String String) (r : ρ) : ρ :=
  match env (ops.mkP r) with
  | .ok sid => ops.onOk sid r
  | .error _ => ops.onErr r

/-- The effect of the iteration for snapshot record `r` on one stored
record `x`. -/
def applyOne {ρ π : Type} (ops : SweepOps ρ π)
    (env : π → Except String String) (r x : ρ) : ρ :=
  match env (ops.mkP r) with
  | .ok sid => if ops.getId x = ops.getId r then ops.onOk sid x else x
  | .error _ => if ops.getId x = ops.getId r then ops.onErr x else x

/-- The effect of a whole `todo` list of iterations on one stored record. -/
def applyAll {ρ π : Type} (ops : SweepOps ρ π)
    (env : π → Except String String) : List ρ → ρ → ρ
  | [], x => x
  | r :: todo, x => applyAll ops env todo (applyOne ops env r x)

/-! ## Sweep instantiations for the two services -/

/-- The remote insert payload `SimpleOfflineSync.syncOfflineData` builds for
a pending income: business fields plus the session user's id — the record's
`id` and `sync_status` are not part of it. -/
structure IncomePayload where
  description : String
  amount : ℚ
  currency : String
  source_type : String
  source_location : String
  received_date : String
  user_id : String
  deriving DecidableEq

/-- Payload construction for a pending income (simple service). -/
def mkIncomePayload (uid : String) (r : IncomeRecord) : IncomePayload :=
  { description := r.fields.description, amount := r.fields.amount,
    currency := r.fields.currency, source_type := r.fields.source_type,
    source_location := r.fields.source_location,
    received_date := r.fields.received_date, user_id := uid }

/-- The income table's sweep ingredients (simple service). -/
def incomeSweepOps (uid : String) (now : ℕ) : SweepOps IncomeRecord IncomePayload :=
  { getId := IncomeRecord.id,
    isPending := fun r => decide (r.sync_status = SyncStatus.pending),
    mkP := mkIncomePayload uid,
    onOk := fun sid r => { r with id := sid, sync_status := .synced, updated_at := now },
    onErr := fun r => { r with sync_status := .failed, updated_at := now } }

/-- The remote insert payload for a pending asset (simple service); note the
source maps the local `notes` field into the remote `description` column. -/
structure AssetPayload where
  asset_name : String
  asset_type : String
  current_value : ℚ
  currency : String
  purchase_date : String
  description : String
  user_id : String
  deriving DecidableEq

/-- Payload construction for a pending asset (simple service). -/
def mkAssetPayload (uid : String) (r : AssetRecord) : AssetPayload :=
  { asset_name := r.fields.asset_name, asset_type := r.fields.asset_type,
    current_value := r.fields.current_value, currency := r.fields.currency,
    purchase_date := r.fields.purchase_date, description := r.fields.notes,
    user_id := uid }

/-- The asset table's sweep ingredients (simple service). -/
def assetSweepOps (uid : String) (now : ℕ) : SweepOps AssetRecord AssetPayload :=
  { getId := AssetRecord.id,
    isPending := fun r => decide (r.sync_status = SyncStatus.pending),
    mkP := mkAssetPayload uid,
    onOk := fun sid r => { r with id := sid, sync_status := .synced, updated_at := now },
    onErr := fun r => { r with sync_status := .failed, updated_at := now } }

/-- `SimpleOfflineSync.syncOfflineData`: return immediately when offline or
when no user is authenticated; otherwise sweep the pending incomes, then the
pending assets.  The result is the new store together with the income and
asset payloads submitted remotely.  This service has no in-progress flag. -/
def simpleSyncOfflineData (user : Option String) (online : Bool)
    (envI : IncomePayload → Except String String)
    (envA : AssetPayload → Except String String) (now : ℕ) (st : LocalStore) :
    LocalStore × List IncomePayload × List AssetPayload :=
  if !online then (st, [], [])
  else
    match user with
    | none => (st, [], [])
    | some uid =>
      let ri := sweep (incomeSweepOps uid now) envI st.incomes
      let ra := sweep (assetSweepOps uid now) envA st.assets
      ({ incomes := ri.1, assets := ra.1 }, ri.2, ra.2)

/-- The income payload `OfflineSyncService.syncOfflineData` builds — same
business fields, without a `user_id` (that file never touches auth). -/
structure SvcIncomePayload where
  description : String
  amount : ℚ
  currency : String
  source_type : String
  source_location : String
  received_date : String
  deriving DecidableEq

/-- Payload construction for a pending income (`OfflineSyncService`). -/
def mkSvcIncomePayload (r : IncomeRecord) : SvcIncomePayload :=
  { description := r.fields.description, amount := r.fields.amount,
    currency := r.fields.currency, source_type := r.fields.source_type,
    source_location := r.fields.source_location,
    received_date := r.fields.received_date }

/-- The income table's sweep ingredients (`OfflineSyncService`). -/
def svcIncomeSweepOps (now : ℕ) : SweepOps IncomeRecord SvcIncomePayload :=
  { getId := IncomeRecord.id,
    isPending := fun r => decide (r.sync_status = SyncStatus.pending),
    mkP := mkSvcIncomePayload,
    onOk := fun sid r => { r with id := sid, sync_status := .synced, updated_at := now },
    onErr := fun r => { r with sync_status := .failed, updated_at := now } }

/-- The asset payload of `OfflineSyncService.syncAssets` (keeps the `notes`
column name, no `user_id`). -/
structure SvcAssetPayload where
  asset_name : String
  asset_type : String
  current_value : ℚ
  currency : String
  purchase_date : String
  notes : String
  deriving DecidableEq

/-- Payload construction for a pending asset (`OfflineSyncService`). -/
def mkSvcAssetPayload (r : AssetRecord) : SvcAssetPayload :=
  { asset_name := r.fields.asset_name, asset_type := r.fields.asset_type,
    current_value := r.fields.current_value, currency := r.fields.currency,
    purchase_date := r.fields.purchase_date, notes := r.fields.notes }

/-- The asset table's sweep ingredients (`OfflineSyncService`). -/
def svcAssetSweepOps (now : ℕ) : SweepOps AssetRecord SvcAssetPayload :=
  { getId := AssetRecord.id,
    isPending := fun r => decide (r.sync_status = SyncStatus.pending),
    mkP := mkSvcAssetPayload,
    onOk := fun sid r => { r with id := sid, sync_status := .synced, updated_at := now },
    onErr := fun r => { r with sync_status := .failed, updated_at := now } }

/-- State of the `OfflineSyncService` singleton: its in-memory
`syncInProgress` flag and the shared local store. -/
structure SvcState where
  syncInProgress : Bool
  store : LocalStore
  deriving DecidableEq

/-- `OfflineSyncService.syncOfflineData`: return immediately when offline or
when `syncInProgress` is set; otherwise set the flag, sweep pending incomes
then assets (the goal/transaction/budget-category sweeps are empty
placeholders in the source), and clear the flag in a `finally`. -/
def svcSyncOfflineData (online : Bool)
    (envI : SvcIncomePayload → Except String String)
    (envA : SvcAssetPayload → Except String String) (now : ℕ) (st : SvcState) :
    SvcState × List SvcIncomePayload × List SvcAssetPayload :=
  if !online || st.syncInProgress then (st, [], [])
  else
    let ri := sweep (svcIncomeSweepOps now) envI st.store.incomes
    let ra := sweep (svcAssetSweepOps now) envA st.store.assets
    ({ syncInProgress := false, store := { incomes := ri.1, assets := ra.1 } },
      ri.2, ra.2)

/-- Two overlapping invocations of `SimpleOfflineSync.syncOfflineData`
(online, with a user): every remote insert and every Dexie call in the sweep
is an awaited suspension point, so the event loop can run the second
invocation's pending-list `toArray` read before the first invocation's first
`modify` has been applied; both sweeps then operate on the same snapshot
`l` of the incomes table.  The value is the concatenation of the income
payloads the two invocations submit remotely. -/
def overlappedSimpleSyncIncomeSubmissions (uid : String)
    (env : IncomePayload → Except String String) (now : ℕ)
    (l : List IncomeRecord) : List IncomePayload :=
  (sweep (incomeSweepOps uid now) env l).2 ++ (sweep (incomeSweepOps uid now) env l).2

/-! ## getSyncStatus -/

/-- The record of counts returned by `getSyncStatus`. -/
structure SyncCounts where
  pending : ℕ
  failed : ℕ
  synced : ℕ
  deriving DecidableEq

/-- `getSyncStatus` (identical in both services): three Dexie `count`
queries, all of them against the `incomes` table only, no auth or remote
call involved. -/
def getSyncStatus (st : LocalStore) : SyncCounts :=
  { pending := (st.incomes.filter fun r => decide (r.sync_status = SyncStatus.pending)).length,
    failed := (st.incomes.filter fun r => decide (r.sync_status = SyncStatus.failed)).length,
    synced := (st.incomes.filter fun r => decide (r.sync_status = SyncStatus.synced)).length }

/-- Modelled from the spec: "counts of locally stored records in each
status" — the counts taken over every locally stored record, i.e. over both
modelled tables of the local store, for comparison with `getSyncStatus`. -/
def specLocalStatusCounts (st : LocalStore) : SyncCounts :=
  { pending := (st.incomes.filter fun r => decide (r.sync_status = SyncStatus.pending)).length
      + (st.assets.filter fun r => decide (r.sync_status = SyncStatus.pending)).length,
    failed := (st.incomes.filter fun r => decide (r.sync_status = SyncStatus.failed)).length
      + (st.assets.filter fun r => decide (r.sync_status = SyncStatus.failed)).length,
    synced := (st.incomes.filter fun r => decide (r.sync_status = SyncStatus.synced)).length
      + (st.assets.filter fun r => decide (r.sync_status = SyncStatus.synced)).length }

/-! ## Sweep lemmas -/

section SweepLemmas

variable {ρ π : Type} (ops : SweepOps ρ π) (env : π → Except String String)

lemma sweepAux_snd : ∀ (todo : List ρ) (s : List ρ) (subs : List π),
    (sweepAux ops env todo (s, subs)).2 = subs ++ todo.map ops.mkP
  | [], s, subs => by simp [sweepAux]
  | r :: t, s, subs => by
    simp [sweepAux, sweepAux_snd t]

lemma sweepStep_map (s : List ρ) (r : ρ) :
    sweepStep ops env s r = s.map (applyOne ops env r) := by
  cases henv : env (ops.mkP r) <;>
    simp [sweepStep, modifyById, applyOne, henv]

lemma sweepAux_fst : ∀ (todo : List ρ) (l : List ρ) (g : ρ → ρ) (subs : List π),
    (sweepAux ops env todo (l.map g, subs)).1 =
      l.map fun x => applyAll ops env todo (g x)
  | [], l, g, subs => by simp [sweepAux, applyAll]
  | r :: t, l, g, subs => by
    simp only [sweepAux, sweepStep_map, List.map_map]
    have := sweepAux_fst t l (fun x => applyOne ops env r (g x)) (subs ++ [ops.mkP r])
    simpa [applyAll, Function.comp] using this

/-- The submissions of a sweep are exactly the payloads of the pending
snapshot, in order. -/
lemma sweep_snd (l : List ρ) :
    (sweep ops env l).2 = (l.filter ops.isPending).map ops.mkP := by
  simpa [sweep] using sweepAux_snd ops env (l.filter ops.isPending) l []

lemma sweep_fst_map (l : List ρ) :
    (sweep ops env l).1 =
      l.map (applyAll ops env (l.filter ops.isPending)) := by
  have := sweepAux_fst ops env (l.filter ops.isPending) l id []
  simpa [sweep] using this

/-- A sweep never inserts or deletes local records: the store keeps its
length. -/
lemma sweep_length (l : List ρ) : (sweep ops env l).1.length = l.length := by
  rw [sweep_fst_map]; simp

lemma applyOne_of_ne {r x : ρ} (h : ops.getId x ≠ ops.getId r) :
    applyOne ops env r x = x := by
  cases henv : env (ops.mkP r) <;> simp [applyOne, h, henv]

lemma applyAll_of_ne : ∀ (todo : List ρ) (x : ρ),
    (∀ r ∈ todo, ops.getId r ≠ ops.getId x) → applyAll ops env todo x = x
  | [], x, _ => rfl
  | r :: t, x, h => by
    rw [applyAll, applyOne_of_ne ops env (h r (by simp)).symm]
    exact applyAll_of_ne t x fun q hq => h q (by simp [hq])

lemma applyOne_self (r : ρ) : applyOne ops env r r = stepResult ops env r := by
  cases henv : env (ops.mkP r) <;> simp [applyOne, stepResult, henv]

lemma applyAll_append : ∀ (t₁ t₂ : List ρ) (x : ρ),
    applyAll ops env (t₁ ++ t₂) x = applyAll ops env t₂ (applyAll ops env t₁ x)
  | [], t₂, x => rfl
  | r :: t, t₂, x => by
    rw [List.cons_append, applyAll, applyAll, applyAll_append t t₂]

/-- A pending snapshot record, once its own iteration has run, is not
touched again by the remaining iterations (its id is either the fresh
server id or its unchanged original id, neither of which any later
iteration targets). -/
lemma applyAll_processed
    (hOkId : ∀ sid x, ops.getId (ops.onOk sid x) = sid)
    (hErrId : ∀ x, ops.getId (ops.onErr x) = ops.getId x)
    (t₁ t₂ : List ρ) (x : ρ)
    (h1 : ∀ r ∈ t₁, ops.getId r ≠ ops.getId x)
    (h2 : ∀ r ∈ t₂, ops.getId r ≠ ops.getId x)
    (hfr : ∀ sid, env (ops.mkP x) = .ok sid → ∀ r ∈ t₂, ops.getId r ≠ sid) :
    applyAll ops env (t₁ ++ x :: t₂) x = stepResult ops env x := by
  rw [applyAll_append, applyAll_of_ne ops env t₁ x h1, applyAll,
    applyOne_self]
  cases henv : env (ops.mkP x) with
  | ok sid =>
    apply applyAll_of_ne
    intro r hr
    simpa [stepResult, henv, hOkId] using hfr sid henv r hr
  | error e =>
    apply applyAll_of_ne
    intro r hr
    simpa [stepResult, henv, hErrId] using h2 r hr

/-- Store characterization of a sweep: when local ids are pairwise distinct
and server-assigned ids are fresh, the resulting store is the input store
with every pending record replaced in place by its iteration's outcome and
every non-pending record untouched. -/
lemma sweep_store
    (hOkId : ∀ sid x, ops.getId (ops.onOk sid x) = sid)
    (hErrId : ∀ x, ops.getId (ops.onErr x) = ops.getId x)
    (l : List ρ)
    (hnd : (l.map ops.getId).Nodup)
    (hfresh : ∀ r ∈ l, ops.isPending r = true →
      ∀ sid, env (ops.mkP r) = .ok sid → ∀ q ∈ l, ops.getId q ≠ sid) :
    (sweep ops env l).1 =
      l.map fun x => if ops.isPending x then stepResult ops env x else x := by
  rw [sweep_fst_map]
  apply List.map_congr_left
  intro x hx
  by_cases hp : ops.isPending x
  · rw [if_pos hp]
    have hxt : x ∈ l.filter ops.isPending := List.mem_filter.mpr ⟨hx, hp⟩
    obtain ⟨t₁, t₂, ht⟩ := List.append_of_mem hxt
    have hsub : ∀ r ∈ l.filter ops.isPending, r ∈ l :=
      fun r hr => List.mem_of_mem_filter hr
    have hndt : ((l.filter ops.isPending).map ops.getId).Nodup :=
      hnd.sublist (List.Sublist.map _ (List.filter_sublist l))
    rw [ht, List.map_append, List.map_cons] at hndt
    obtain ⟨nd₁, nd₂, disj⟩ := List.nodup_append.mp hndt
    obtain ⟨hxnot₂, _⟩ := List.nodup_cons.mp nd₂
    have h1 : ∀ r ∈ t₁, ops.getId r ≠ ops.getId x := by
      intro r hr heq
      exact disj (List.mem_map_of_mem ops.getId hr)
        (by simp [heq.symm])
    have h2 : ∀ r ∈ t₂, ops.getId r ≠ ops.getId x := by
      intro r hr heq
      exact hxnot₂ (heq ▸ List.mem_map_of_mem ops.getId hr)
    rw [ht]
    refine applyAll_processed ops env hOkId hErrId t₁ t₂ x h1 h2 ?_
    intro sid hsid r hr
    have hrl : r ∈ l := hsub r (by rw [ht]; simp [hr])
    exact hfresh x hx hp sid hsid r hrl
  · rw [if_neg hp]
    apply applyAll_of_ne
    intro r hr heq
    have hrl : r ∈ l := List.mem_of_mem_filter hr
    have hrp : ops.isPending r = true := List.of_mem_filter hr
    have : r = x := List.inj_on_of_nodup_map hnd hrl hx heq
    rw [this] at hrp
    exact hp hrp

end SweepLemmas

/-! ## Sample data for closed witnesses and counterexamples -/

/-- A sample caller-supplied income payload. -/
def sampleIncomeFields : IncomeFields :=
  { description := "salary", amount := 100, currency := "RWF",
    source_type := "job", source_location := "office",
    received_date := "2024-01-01" }

/-- A sample locally stored pending income record. -/
def samplePendingIncome : IncomeRecord :=
  { fields := sampleIncomeFields, user_id := "user-1", id := "temp_1",
    sync_status := .pending, created_at := 1, updated_at := 1 }

/-- A sample locally stored pending asset record. -/
def samplePendingAsset : AssetRecord :=
  { fields := { asset_name := "bike", asset_type := "vehicle",
                current_value := 200, currency := "RWF",
                purchase_date := "2024-01-01", notes := "red" },
    user_id := "user-1", id := "temp_2",
    sync_status := .pending, created_at := 1, updated_at := 1 }

/-- A remote that accepts every income insert with server id `srv-1`. -/
def envOkIncome : IncomePayload → Except String String := fun _ => .ok "srv-1"

/-- A remote whose income inserts all throw. -/
def envErrIncome : IncomePayload → Except String String :=
  fun _ => .error "network error"

/-- A remote that accepts every asset insert with server id `srv-2`. -/
def envOkAsset : AssetPayload → Except String String := fun _ => .ok "srv-2"

/-- A remote whose asset inserts all throw. -/
def envErrAsset : AssetPayload → Except String String :=
  fun _ => .error "network error"

/-! ## Claim theorems -/

/-- C2: `addIncome`/`addAsset` with an authenticated user never propagate a
remote failure: online with a failing remote insert they fall back to the
offline path and return the temporary id; offline they skip the remote
attempt entirely (the result does not depend on the remote outcome); the
offline path appends to the local store a record carrying the payload, the
temporary id, status `pending` and `created_at = updated_at = now`, and
returns the temporary id. -/
theorem addIncome_addAsset_offline_first_spec :
    (∀ (uid e : String) (data : IncomeFields) (tempId : String) (now : ℕ)
        (st : LocalStore),
      addIncome (some uid) true (.error e) data tempId now st
        = .ok (tempId, { st with incomes := st.incomes ++
            [{ fields := data, user_id := uid, id := tempId,
               sync_status := .pending, created_at := now, updated_at := now }] }))
    ∧ (∀ (uid : String) (r₁ r₂ : Except String String) (data : IncomeFields)
        (tempId : String) (now : ℕ) (st : LocalStore),
      addIncome (some uid) false r₁ data tempId now st
        = addIncome (some uid) false r₂ data tempId now st)
    ∧ (∀ (uid : String) (r : Except String String) (data : IncomeFields)
        (tempId : String) (now : ℕ) (st : LocalStore),
      addIncome (some uid) false r data tempId now st
        = .ok (tempId, { st with incomes := st.incomes ++
            [{ fields := data, user_id := uid, id := tempId,
               sync_status := .pending, created_at := now, updated_at := now }] }))
    ∧ (∀ (uid e : String) (data : AssetFields) (tempId : String) (now : ℕ)
        (st : LocalStore),
      addAsset (some uid) true (.error e) data tempId now st
        = .ok (tempId, { st with assets := st.assets ++
            [{ fields := data, user_id := uid, id := tempId,
               sync_status := .pending, created_at := now, updated_at := now }] }))
    ∧ (∀ (uid : String) (r₁ r₂ : Except String String) (data : AssetFields)
        (tempId : String) (now : ℕ) (st : LocalStore),
      addAsset (some uid) false r₁ data tempId now st
        = addAsset (some uid) false r₂ data tempId now st)
    ∧ (∀ (uid : String) (r : Except String String) (data : AssetFields)
        (tempId : String) (now : ℕ) (st : LocalStore),
      addAsset (some uid) false r data tempId now st
        = .ok (tempId, { st with assets := st.assets ++
            [{ fields := data, user_id := uid, id := tempId,
               sync_status := .pending, created_at := now, updated_at := now }] })) :=
  ⟨fun _ _ _ _ _ _ => rfl, fun _ _ _ _ _ _ _ => rfl, fun _ _ _ _ _ _ => rfl,
   fun _ _ _ _ _ _ => rfl, fun _ _ _ _ _ _ _ => rfl, fun _ _ _ _ _ _ => rfl⟩

/-- C10: with no authenticated user, `addIncome`/`addAsset` throw
`'User not authenticated'`, `getIncomes`/`getAssets` return the empty list,
and `syncOfflineData` returns without touching the store or submitting
anything. -/
theorem no_user_behaviour_spec :
    (∀ (online : Bool) (r : Except String String) (data : IncomeFields)
        (tempId : String) (now : ℕ) (st : LocalStore),
      addIncome none online r data tempId now st
        = .error "User not authenticated")
    ∧ (∀ (online : Bool) (r : Except String String) (data : AssetFields)
        (tempId : String) (now : ℕ) (st : LocalStore),
      addAsset none online r data tempId now st
        = .error "User not authenticated")
    ∧ (∀ (online : Bool) (r : Except String (List IncomeRecord))
        (st : LocalStore), getIncomes none online r st = [])
    ∧ (∀ (online : Bool) (r : Except String (List AssetRecord))
        (st : LocalStore), getAssets none online r st = [])
    ∧ (∀ (online : Bool) (envI : IncomePayload → Except String String)
        (envA : AssetPayload → Except String String) (now : ℕ)
        (st : LocalStore),
      simpleSyncOfflineData none online envI envA now st = (st, [], [])) := by
  refine ⟨fun _ _ _ _ _ _ => rfl, fun _ _ _ _ _ _ => rfl,
    fun _ _ _ => rfl, fun _ _ _ => rfl, fun online _ _ _ _ => ?_⟩
  cases online <;> rfl

/-- C6: `getIncomes`/`getAssets` with a user are a permutation of the remote
contribution concatenated with the owner's locally stored records, sorted
newest-first by `created_at`; the remote contribution is `[]` whenever the
caller is offline and whenever the remote listing fails, so a remote-side
problem never throws — it degrades to listing only local records. -/
theorem list_union_sorted_spec :
    (∀ (uid : String) (online : Bool)
        (remote : Except String (List IncomeRecord)) (st : LocalStore),
      List.Perm (getIncomes (some uid) online remote st)
        (remoteContribution online remote
          ++ st.incomes.filter fun r => r.user_id = uid))
    ∧ (∀ (uid : String) (online : Bool)
        (remote : Except String (List IncomeRecord)) (st : LocalStore),
      List.Sorted (byNewest IncomeRecord.created_at)
        (getIncomes (some uid) online remote st))
    ∧ (∀ (uid : String) (online : Bool)
        (remote : Except String (List AssetRecord)) (st : LocalStore),
      List.Perm (getAssets (some uid) online remote st)
        (remoteContribution online remote
          ++ st.assets.filter fun r => r.user_id = uid))
    ∧ (∀ (uid : String) (online : Bool)
        (remote : Except String (List AssetRecord)) (st : LocalStore),
      List.Sorted (byNewest AssetRecord.created_at)
        (getAssets (some uid) online remote st))
    ∧ (∀ (ρ : Type) (remote : Except String (List ρ)),
      remoteContribution false remote = [])
    ∧ (∀ (ρ : Type) (online : Bool) (e : String),
      remoteContribution (ρ := ρ) online (.error e) = []) := by
  refine ⟨fun uid online remote st => ?_, fun uid online remote st => ?_,
    fun uid online remote st => ?_, fun uid online remote st => ?_,
    fun ρ remote => rfl, fun ρ online e => ?_⟩
  · exact List.perm_insertionSort _ _
  · exact List.sorted_insertionSort _ _
  · exact List.perm_insertionSort _ _
  · exact List.sorted_insertionSort _ _
  · cases online <;> rfl

/-- C3 (counterexample): `SimpleOfflineSync.syncOfflineData` — the instance
the application wires to its online/resume events — has no single-flight
guard.  With one pending income and an always-succeeding remote, a second
invocation overlapping a running sweep (its pending-list read resolving
before the first sweep's `modify` lands) performs a full sweep itself: the
overlap submits the record's payload twice, and the second invocation's
submission list is non-empty rather than `[]`. -/
theorem syncPending_single_flight_counterexample :
    overlappedSimpleSyncIncomeSubmissions "user-1" envOkIncome 5
        [samplePendingIncome]
      = [mkIncomePayload "user-1" samplePendingIncome,
         mkIncomePayload "user-1" samplePendingIncome]
    ∧ (sweep (incomeSweepOps "user-1" 5) envOkIncome [samplePendingIncome]).2
      ≠ [] := by
  exact ⟨rfl, by decide⟩

/-- C3 (amended): `OfflineSyncService.syncOfflineData` is a no-op when
offline, and its `syncInProgress` flag makes it single-flight: invoked with
the flag set it returns the state unchanged with no submissions.
`SimpleOfflineSync.syncOfflineData` is likewise a no-op when offline, but
has no such guard: an invocation overlapping a running sweep repeats every
submission of that sweep (each payload is submitted twice across the
overlap). -/
theorem syncPending_guard_spec :
    (∀ (envI : SvcIncomePayload → Except String String)
        (envA : SvcAssetPayload → Except String String) (now : ℕ)
        (st : SvcState),
      svcSyncOfflineData false envI envA now st = (st, [], []))
    ∧ (∀ (envI : SvcIncomePayload → Except String String)
        (envA : SvcAssetPayload → Except String String) (now : ℕ)
        (store : LocalStore),
      svcSyncOfflineData true envI envA now ⟨true, store⟩
        = (⟨true, store⟩, [], []))
    ∧ (∀ (user : Option String)
        (envI : IncomePayload → Except String String)
        (envA : AssetPayload → Except String String) (now : ℕ)
        (st : LocalStore),
      simpleSyncOfflineData user false envI envA now st = (st, [], []))
    ∧ (∀ (uid : String) (env : IncomePayload → Except String String)
        (now : ℕ) (l : List IncomeRecord) (p : IncomePayload),
      List.count p (overlappedSimpleSyncIncomeSubmissions uid env now l)
        = 2 * List.count p ((sweep (incomeSweepOps uid now) env l).2)) := by
  refine ⟨fun _ _ _ _ => rfl, fun _ _ _ _ => rfl, fun _ _ _ _ _ => rfl,
    fun uid env now l p => ?_⟩
  rw [overlappedSimpleSyncIncomeSubmissions, List.count_append]
  omega

/-- C4: during an online sweep with a user, every pending record is
attempted — the submissions are exactly the payloads of the pending incomes
and pending assets, in order, whatever the remote outcomes are (a failing
record never aborts the sweep) — and a pending record whose remote insert
throws is replaced, at its own position in the local table, by the same
record with `sync_status` set to `failed` and a fresh `updated_at` (its
identifier unchanged). -/
theorem syncSweep_failure_continues_spec :
    (∀ (uid : String) (envI : IncomePayload → Except String String)
        (envA : AssetPayload → Except String String) (now : ℕ)
        (st : LocalStore),
      (simpleSyncOfflineData (some uid) true envI envA now st).2.1
        = (st.incomes.filter fun r =>
            decide (r.sync_status = SyncStatus.pending)).map (mkIncomePayload uid)
      ∧ (simpleSyncOfflineData (some uid) true envI envA now st).2.2
        = (st.assets.filter fun r =>
            decide (r.sync_status = SyncStatus.pending)).map (mkAssetPayload uid))
    ∧ ∀ (uid : String) (envI : IncomePayload → Except String String)
        (envA : AssetPayload → Except String String) (now : ℕ)
        (st : LocalStore),
      (st.incomes.map IncomeRecord.id).Nodup →
      (∀ r ∈ st.incomes, r.sync_status = SyncStatus.pending →
        ∀ sid, envI (mkIncomePayload uid r) = .ok sid →
          ∀ q ∈ st.incomes, q.id ≠ sid) →
      ∀ (i : ℕ) (r : IncomeRecord), st.incomes[i]? = some r →
        r.sync_status = SyncStatus.pending →
        ∀ e, envI (mkIncomePayload uid r) = .error e →
        ((simpleSyncOfflineData (some uid) true envI envA now st).1).incomes[i]?
          = some { r with sync_status := .failed, updated_at := now } := by
  constructor
  · intro uid envI envA now st
    constructor
    · show (sweep (incomeSweepOps uid now) envI st.incomes).2 = _
      rw [sweep_snd]; rfl
    · show (sweep (assetSweepOps uid now) envA st.assets).2 = _
      rw [sweep_snd]; rfl
  · intro uid envI envA now st hnd hfresh i r hi hp e henv
    show (sweep (incomeSweepOps uid now) envI st.incomes).1[i]? = _
    rw [sweep_store (incomeSweepOps uid now) envI
      (fun _ _ => rfl) (fun _ => rfl) st.incomes hnd
      (by intro q hq hqp sid hsid
          exact hfresh q hq (by simpa [incomeSweepOps] using hqp) sid hsid)]
    rw [List.getElem?_map, hi, Option.map_some']
    have hp' : (incomeSweepOps uid now).isPending r = true := by
      simp [incomeSweepOps, hp]
    rw [if_pos hp']
    simp [stepResult, incomeSweepOps, henv]

/-- Closed instance of the C4 theorem: one pending income, a remote whose
insert throws — after the sweep the record sits at its old position with
status `failed`, id unchanged. -/
theorem syncSweep_failure_continues_witness :
    ((simpleSyncOfflineData (some "user-1") true envErrIncome envErrAsset 5
        ⟨[samplePendingIncome], []⟩).1).incomes[0]?
      = some { samplePendingIncome with sync_status := .failed, updated_at := 5 } := by
  refine syncSweep_failure_continues_spec.2 "user-1" envErrIncome envErrAsset 5
    ⟨[samplePendingIncome], []⟩ (by decide) ?_ 0 samplePendingIncome rfl rfl
    "network error" rfl
  intro r _ _ sid hsid
  exact absurd hsid (by simp [envErrIncome])

/-- C5: a pending record whose remote insert succeeds is updated in place —
the local table keeps its length, and the record at the same position
becomes the same record with the server-assigned id substituted for the
temporary id, status `synced` and a fresh `updated_at`; and the payload
submitted remotely is built from business fields only — it is invariant
under changes to the record's `id`, `sync_status`, `user_id`,
`created_at` and `updated_at`. -/
theorem syncSweep_success_spec :
    (∀ (uid : String) (r : IncomeRecord) (id0 : String) (s0 : SyncStatus)
        (u0 : String) (ca ua : ℕ),
      mkIncomePayload uid
          { r with
            id := id0, sync_status := s0, user_id := u0, created_at := ca, updated_at := ua }
        = mkIncomePayload uid r)
    ∧ (∀ (uid : String) (r : AssetRecord) (id0 : String) (s0 : SyncStatus)
        (u0 : String) (ca ua : ℕ),
      mkAssetPayload uid
          { r with
            id := id0, sync_status := s0, user_id := u0, created_at := ca, updated_at := ua }
        = mkAssetPayload uid r)
    ∧ (∀ (uid : String) (envI : IncomePayload → Except String String)
        (envA : AssetPayload → Except String String) (now : ℕ)
        (st : LocalStore),
      ((simpleSyncOfflineData (some uid) true envI envA now st).1).incomes.length
          = st.incomes.length
        ∧ ((simpleSyncOfflineData (some uid) true envI envA now st).1).assets.length
          = st.assets.length)
    ∧ ∀ (uid : String) (envI : IncomePayload → Except String String)
        (envA : AssetPayload → Except String String) (now : ℕ)
        (st : LocalStore),
      (st.incomes.map IncomeRecord.id).Nodup →
      (∀ r ∈ st.incomes, r.sync_status = SyncStatus.pending →
        ∀ sid, envI (mkIncomePayload uid r) = .ok sid →
          ∀ q ∈ st.incomes, q.id ≠ sid) →
      ∀ (i : ℕ) (r : IncomeRecord), st.incomes[i]? = some r →
        r.sync_status = SyncStatus.pending →
        ∀ sid, envI (mkIncomePayload uid r) = .ok sid →
        ((simpleSyncOfflineData (some uid) true envI envA now st).1).incomes[i]?
          = some { r with id := sid, sync_status := .synced, updated_at := now } := by
  refine ⟨fun _ _ _ _ _ _ _ => rfl, fun _ _ _ _ _ _ _ => rfl,
    fun uid envI envA now st => ?_, ?_⟩
  · constructor
    · show (sweep (incomeSweepOps uid now) envI st.incomes).1.length = _
      exact sweep_length _ _ _
    · show (sweep (assetSweepOps uid now) envA st.assets).1.length = _
      exact sweep_length _ _ _
  · intro uid envI envA now st hnd hfresh i r hi hp sid henv
    show (sweep (incomeSweepOps uid now) envI st.incomes).1[i]? = _
    rw [sweep_store (incomeSweepOps uid now) envI
      (fun _ _ => rfl) (fun _ => rfl) st.incomes hnd
      (by intro q hq hqp sid' hsid'
          exact hfresh q hq (by simpa [incomeSweepOps] using hqp) sid' hsid')]
    rw [List.getElem?_map, hi, Option.map_some']
    have hp' : (incomeSweepOps uid now).isPending r = true := by
      simp [incomeSweepOps, hp]
    rw [if_pos hp']
    simp [stepResult, incomeSweepOps, henv]

/-- Closed instance of the C5 theorem: one pending income, a remote that
replies with server id `srv-1` — after the sweep the record sits at its old
position as a `synced` record carrying the server id. -/
theorem syncSweep_success_witness :
    ((simpleSyncOfflineData (some "user-1") true envOkIncome envOkAsset 5
        ⟨[samplePendingIncome], []⟩).1).incomes[0]?
      = some
          { samplePendingIncome with
            id := "srv-1", sync_status := .synced, updated_at := 5 } := by
  refine syncSweep_success_spec.2.2.2 "user-1" envOkIncome envOkAsset 5
    ⟨[samplePendingIncome], []⟩ (by decide) ?_ 0 samplePendingIncome rfl rfl
    "srv-1" rfl
  intro r hr _ sid hsid q hq
  have h1 : sid = "srv-1" := by
    simpa [envOkIncome] using hsid.symm
  have h2 : q = samplePendingIncome := by simpa using hq
  rw [h1, h2]
  decide

/-- C8 (counterexample): `getSyncStatus` counts only the `incomes` table —
with an empty incomes table and one locally stored pending asset it reports
zero pending records, though the local store holds one record with
`sync_status` `pending`. -/
theorem getSyncStatus_counterexample :
    getSyncStatus ⟨[], [samplePendingAsset]⟩ = ⟨0, 0, 0⟩
    ∧ specLocalStatusCounts ⟨[], [samplePendingAsset]⟩ = ⟨1, 0, 0⟩
    ∧ (⟨0, 0, 0⟩ : SyncCounts) ≠ ⟨1, 0, 0⟩ := by
  exact ⟨rfl, by decide, by decide⟩

/-- C8 (amended): `getSyncStatus` returns the counts of locally stored
*income* records with status `pending`, `failed` and `synced`, computed
from the local store alone (the function consumes nothing but the store —
no connectivity, auth or remote input); locally stored records of other
tables, such as assets, are not counted: the result is independent of the
assets table. -/
theorem getSyncStatus_income_only_spec :
    (∀ st : LocalStore,
      (getSyncStatus st).pending
          = (st.incomes.filter fun r =>
              decide (r.sync_status = SyncStatus.pending)).length
        ∧ (getSyncStatus st).failed
          = (st.incomes.filter fun r =>
              decide (r.sync_status = SyncStatus.failed)).length
        ∧ (getSyncStatus st).synced
          = (st.incomes.filter fun r =>
              decide (r.sync_status = SyncStatus.synced)).length)
    ∧ ∀ (incomes : List IncomeRecord) (a₁ a₂ : List AssetRecord),
      getSyncStatus ⟨incomes, a₁⟩ = getSyncStatus ⟨incomes, a₂⟩ :=
  ⟨fun _ => ⟨rfl, rfl, rfl⟩, fun _ _ _ => rfl⟩

end Budgeter
